import Mathlib

/-!
Shallow embedding of the task-mutation and audit-event pipeline of the
task-management-api repository (src/app/routers/tasks.py, src/app/schemas.py,
src/app/models.py), together with theorems settling the frozen claims.

Conventions of the embedding:
* SQLAlchemy rows become Lean structures; the session/database becomes an
  explicit `DBState` threaded through each operation.
* `datetime` values are abstracted as `Nat` timestamps (only equality and
  stringification matter to the code under verification).
* A raised `HTTPException` becomes `Except.error`; since FastAPI raises it
  before any commit of the enclosing request, the error branch carries no
  state (the transaction is rolled back / nothing was committed).
* Pydantic `Optional` fields with default `None` become `Option` fields;
  an explicit JSON `null` and an omitted field both validate to `None` in
  pydantic (the code never consults `model_fields_set` / `exclude_unset`),
  so both are embedded as `Option.none`.
* `Tag` rows have a unique `name`, and the code only ever queries them by
  name, so the tag table is embedded as the list of existing tag names.
* `User` rows are looked up only by id in this pipeline, so the user table
  is embedded as the list of existing user ids; the actor's id and role are
  passed explicitly (they come from the identity dependency).
-/

namespace App

/-- One row of `tasks` (src/app/models.py, class Task).  `tags` holds the
names of the linked tags (unique key of `Tag`), `collaborators` the ids of
the linked users. -/
structure Task where
  id : Nat
  title : String
  description : Option String
  status : String
  priority : String
  dueDate : Option Nat
  createdById : Nat
  assigneeId : Option Nat
  parentId : Option Nat
  tags : List String
  collaborators : List Nat
  deriving Repr, DecidableEq

/-- One row of `task_events` (src/app/models.py, class TaskEvent). -/
structure TaskEvent where
  taskId : Nat
  userId : Option Nat
  eventType : String
  field : Option String
  oldValue : Option String
  newValue : Option String
  deriving Repr, DecidableEq

/-- The relational store visible to the tasks router: the task table, the
tag table (by unique name), the user table (by id), the dependency pairs
and the event ledger.  `nextId` models primary-key assignment for newly
inserted tasks. -/
structure DBState where
  tasks : List Task
  tagNames : List String
  users : List Nat
  deps : List (Nat × Nat)
  events : List TaskEvent
  nextId : Nat
  deriving Repr, DecidableEq

/-- `schemas.TaskUpdate` (src/app/schemas.py): every field optional,
defaulting to `None`. -/
structure TaskUpdate where
  title : Option String := none
  description : Option String := none
  status : Option String := none
  priority : Option String := none
  dueDate : Option Nat := none
  assigneeId : Option Nat := none
  parentId : Option Nat := none
  tagNames : Option (List String) := none
  collaboratorIds : Option (List Nat) := none
  deriving Repr, DecidableEq

/-- `schemas.TaskCreate` (src/app/schemas.py): like `TaskBase` but with a
required title. -/
structure TaskCreate where
  title : String
  description : Option String := none
  status : Option String := none
  priority : Option String := none
  dueDate : Option Nat := none
  assigneeId : Option Nat := none
  parentId : Option Nat := none
  tagNames : Option (List String) := none
  collaboratorIds : Option (List Nat) := none
  deriving Repr, DecidableEq

/-- `schemas.BulkTaskUpdateItem`: a task id plus a narrower patch. -/
structure BulkTaskUpdateItem where
  id : Nat
  status : Option String := none
  priority : Option String := none
  assigneeId : Option Nat := none
  deriving Repr, DecidableEq

/-- One entry of `changed_fields` in `_apply_task_updates`, already
stringified the way the event constructor stringifies it
(`str(old) if old is not None else None`, likewise for `new`). -/
structure FieldChange where
  field : String
  oldValue : Option String
  newValue : Option String
  deriving Repr, DecidableEq

/-- `fastapi.HTTPException(status_code, detail)`. -/
structure HTTPException where
  statusCode : Nat
  detail : String
  deriving Repr, DecidableEq

/-- The closure `set_attr` of `_apply_task_updates`, instantiated at a
column that is NOT nullable on the task (title, status, priority): sets the
field when the patch supplies a value different from the current one and
records a change; `ts` is Python `str` for the column type. -/
def setAttrReq (field : String) (ts : α → String) [DecidableEq α]
    (old : α) (value : Option α) : α × List FieldChange :=
  match value with
  | none => (old, [])
  | some v =>
    if v = old then (old, [])
    else (v, [⟨field, some (ts old), some (ts v)⟩])

/-- The closure `set_attr` instantiated at a nullable column
(description, due_date, assignee_id, parent_id): the current value may be
`None`, and the guard is `value is not None and value != old`. -/
def setAttrOpt (field : String) (ts : α → String) [DecidableEq α]
    (old : Option α) (value : Option α) : Option α × List FieldChange :=
  match value with
  | none => (old, [])
  | some v =>
    if some v = old then (old, [])
    else (some v, [⟨field, old.map ts, some (ts v)⟩])

/-- One iteration of the tag loop: query the tag table by exact
(case-sensitive) name, create the tag when missing, append it to the
task's tag list.  `acc.1` is the tag table, `acc.2` the tag list built so
far. -/
def resolveStep (acc : List String × List String) (name : String) :
    List String × List String :=
  if name ∈ acc.1 then (acc.1, acc.2 ++ [name])
  else (acc.1 ++ [name], acc.2 ++ [name])

/-- The tag loop of `_apply_task_updates` (and of `create_task`): for each
requested name, query the tag table by exact name; create the tag when
missing (visible to later queries of the same loop via session autoflush);
append it to the task's tag list.  Returns the new tag table and the
task's new tag list. -/
def resolveTags (tagStore : List String) (names : List String) :
    List String × List String :=
  names.foldl resolveStep (tagStore, [])

/-- Python `",".join(xs)`. -/
def joinComma (xs : List String) : String :=
  String.intercalate "," xs

/-- The `if data.tag_names is not None:` block of `_apply_task_updates`
(lines 31-39): clear the task's tags, rebuild them from the desired names
(creating missing tags), and append ONE change for the whole operation,
with `old = None` and `new = ",".join(tag_names)` — appended even when the
resulting set equals the previous one.  Returns (task tags, tag table,
appended changes). -/
def syncTagsPart (tags : List String) (tagStore : List String)
    (v : Option (List String)) :
    List String × List String × List FieldChange :=
  match v with
  | none => (tags, tagStore, [])
  | some names =>
    let r := resolveTags tagStore names
    (r.2, r.1, [⟨"tags", none, some (joinComma names)⟩])

/-- The `if data.collaborator_ids is not None:` block (lines 41-52): clear
the collaborators; when the id list is truthy (non-empty), link exactly the
users whose ids exist; append ONE change with `old = None` and
`new = ",".join(map(str, ids))` — appended unconditionally when the list
was supplied. -/
def syncCollaboratorsPart (collabs : List Nat) (users : List Nat)
    (v : Option (List Nat)) : List Nat × List FieldChange :=
  match v with
  | none => (collabs, [])
  | some ids =>
    ((if ids.isEmpty then [] else users.filter (fun u => u ∈ ids)),
     [⟨"collaborators", none, some (joinComma (ids.map toString))⟩])

/-- `_apply_task_updates(task, data, db, user_id)` (src/app/routers/tasks.py,
lines 14-63), as a pure function: returns the mutated task, the updated tag
table, and `changed_fields` in append order (title, description, status,
priority, due_date, assignee_id, parent_id, tags, collaborators).  The
events the function adds are `mkUpdateEvents` of the returned changes. -/
def applyTaskUpdates (task : Task) (data : TaskUpdate)
    (tagStore : List String) (users : List Nat) :
    Task × List String × List FieldChange :=
  let r1 := setAttrReq "title" id task.title data.title
  let r2 := setAttrOpt "description" id task.description data.description
  let r3 := setAttrReq "status" id task.status data.status
  let r4 := setAttrReq "priority" id task.priority data.priority
  let r5 := setAttrOpt "due_date" toString task.dueDate data.dueDate
  let r6 := setAttrOpt "assignee_id" toString task.assigneeId data.assigneeId
  let r7 := setAttrOpt "parent_id" toString task.parentId data.parentId
  let r8 := syncTagsPart task.tags tagStore data.tagNames
  let r9 := syncCollaboratorsPart task.collaborators users data.collaboratorIds
  ({ task with
      title := r1.1, description := r2.1, status := r3.1,
      priority := r4.1, dueDate := r5.1, assigneeId := r6.1,
      parentId := r7.1, tags := r8.1, collaborators := r9.1 },
   r8.2.1,
   r1.2 ++ r2.2 ++ r3.2 ++ r4.2 ++ r5.2 ++ r6.2 ++ r7.2 ++ r8.2.2 ++ r9.2)

/-- The event-emission loop at the end of `_apply_task_updates`: one
`update` event per changed field, in list order. -/
def mkUpdateEvents (taskId userId : Nat) (changes : List FieldChange) :
    List TaskEvent :=
  changes.map (fun c => ⟨taskId, some userId, "update", some c.field, c.oldValue, c.newValue⟩)

/-- `db.query(Task).filter(Task.id == task_id).first()`. -/
def findTask (db : DBState) (taskId : Nat) : Option Task :=
  db.tasks.find? (fun t => t.id = taskId)

/-- The RBAC guard of `update_task` / `bulk_update_tasks`
(src/app/routers/tasks.py, lines 181-184 and 226-229):
`current_user.role in ("admin", "manager") or current_user.id in
(task.created_by_id, task.assignee_id)` — membership of an int in a tuple
whose second slot may be `None` never matches `None`. -/
def canUpdate (role : String) (userId : Nat) (task : Task) : Bool :=
  role = "admin" ∨ role = "manager" ∨ userId = task.createdById
    ∨ task.assigneeId = some userId

/-- The RBAC guard of `delete_task` (src/app/routers/tasks.py, line 203). -/
def canDelete (role : String) (userId : Nat) (task : Task) : Bool :=
  role = "admin" ∨ role = "manager" ∨ userId = task.createdById

/-- The committed effect of a successful `update_task` (or of one
successful `bulk_update_tasks` iteration): the mutated task replaces its
row, the tag table is updated, and one `update` event per changed field is
appended. -/
def updateTaskState (db : DBState) (userId taskId : Nat) (data : TaskUpdate)
    (task : Task) : DBState :=
  let r := applyTaskUpdates task data db.tagNames db.users
  { db with
      tasks := db.tasks.map (fun t => if t.id = taskId then r.1 else t),
      tagNames := r.2.1,
      events := db.events ++ mkUpdateEvents taskId userId r.2.2 }

/-- `update_task` endpoint (src/app/routers/tasks.py, lines 169-190):
404 when the task is missing, 403 when the guard denies, otherwise apply
the patch, persist the events and return the updated task. -/
def update_task (db : DBState) (userId : Nat) (role : String)
    (taskId : Nat) (data : TaskUpdate) : Except HTTPException (DBState × Task) :=
  match findTask db taskId with
  | none => .error ⟨404, "Task not found"⟩
  | some task =>
    if canUpdate role userId task then
      .ok (updateTaskState db userId taskId data task,
           (applyTaskUpdates task data db.tagNames db.users).1)
    else
      .error ⟨403, "Not allowed to update this task"⟩

/-- `delete_task` endpoint (src/app/routers/tasks.py, lines 193-208). -/
def delete_task (db : DBState) (userId : Nat) (role : String)
    (taskId : Nat) : Except HTTPException DBState :=
  match findTask db taskId with
  | none => .error ⟨404, "Task not found"⟩
  | some task =>
    if canDelete role userId task then
      .ok { db with tasks := db.tasks.filter (fun t => ¬ t.id = taskId) }
    else
      .error ⟨403, "Not allowed to delete this task"⟩

/-- Python `x or default` for an optional string field (`task_in.status or
TaskStatusEnum.TODO.value`): `None` AND the empty string are falsy. -/
def pyOr (v : Option String) (dflt : String) : String :=
  match v with
  | none => dflt
  | some s => if s = "" then dflt else s

/-- `create_task` endpoint (src/app/routers/tasks.py, lines 66-114).  The
code performs TWO separate commits: `db.commit()` at line 100 persists the
task (and its tag/collaborator links), and only afterwards is the `create`
event added and committed at line 112.  The result is therefore a pair of
committed states `(afterFirstCommit, afterSecondCommit)` plus the created
task; `if task_in.tag_names:` / `if task_in.collaborator_ids:` are Python
truthiness tests (false for `None` and for `[]`). -/
def create_task (db : DBState) (userId : Nat) (input : TaskCreate) :
    DBState × DBState × Task :=
  let tid := db.nextId
  let (store1, tags1) :=
    match input.tagNames with
    | none => (db.tagNames, ([] : List String))
    | some names =>
      if names.isEmpty then (db.tagNames, []) else resolveTags db.tagNames names
  let collabs1 :=
    match input.collaboratorIds with
    | none => ([] : List Nat)
    | some ids =>
      if ids.isEmpty then [] else db.users.filter (fun u => u ∈ ids)
  let task : Task :=
    { id := tid, title := input.title, description := input.description,
      status := pyOr input.status "todo", priority := pyOr input.priority "medium",
      dueDate := input.dueDate, createdById := userId,
      assigneeId := input.assigneeId, parentId := input.parentId,
      tags := tags1, collaborators := collabs1 }
  let dbAfterFirstCommit : DBState :=
    { db with tasks := db.tasks ++ [task], tagNames := store1,
              nextId := db.nextId + 1 }
  let createEvent : TaskEvent := ⟨tid, some userId, "create", none, none, none⟩
  let dbAfterSecondCommit : DBState :=
    { dbAfterFirstCommit with
        events := dbAfterFirstCommit.events ++ [createEvent] }
  (dbAfterFirstCommit, dbAfterSecondCommit, task)

/-- The committed effect of a successful dependency insertion: the pair
row plus one `add_dependency` event with `field = "depends_on"` and
`new_value = str(depends_on_id)`. -/
def addDepState (db : DBState) (userId taskId dependsOnId : Nat) : DBState :=
  { db with
      deps := db.deps ++ [(taskId, dependsOnId)],
      events := db.events ++
        [⟨taskId, some userId, "add_dependency", some "depends_on",
          none, some (toString dependsOnId)⟩] }

/-- `add_dependency` endpoint (src/app/routers/tasks.py, lines 242-283):
self-dependency is rejected first (before either task is looked up); then
both tasks must exist; an existing pair is a no-op success; otherwise the
pair is inserted and one `add_dependency` event recorded.  (The code's two
successive commits are collapsed into the returned state; no claim
concerns this endpoint's intermediate state.)  The returned string is the
`detail` of the JSON response. -/
def add_dependency (db : DBState) (userId : Nat) (taskId dependsOnId : Nat) :
    Except HTTPException (DBState × String) :=
  if taskId = dependsOnId then
    .error ⟨400, "Task cannot depend on itself"⟩
  else
    match findTask db taskId, findTask db dependsOnId with
    | some _, some _ =>
      if (taskId, dependsOnId) ∈ db.deps then
        .ok (db, "Dependency already exists")
      else
        .ok (addDepState db userId taskId dependsOnId, "Dependency added")
    | _, _ => .error ⟨404, "Task not found"⟩

/-- `schemas.TaskUpdate(**item.model_dump())` in `bulk_update_tasks`:
the narrower bulk patch widened to a full patch (pydantic ignores the
extra `id` key; all unsupplied fields default to `None`). -/
def bulkItemToUpdate (item : BulkTaskUpdateItem) : TaskUpdate :=
  { status := item.status, priority := item.priority,
    assigneeId := item.assigneeId }

/-- The body of one successful iteration of the `bulk_update_tasks` loop:
apply the widened patch through `_apply_task_updates` and persist the
mutated task, tag table and emitted events. -/
def bulkStep (db : DBState) (userId : Nat) (item : BulkTaskUpdateItem)
    (task : Task) : DBState :=
  updateTaskState db userId item.id (bulkItemToUpdate item) task

/-- `bulk_update_tasks` endpoint (src/app/routers/tasks.py, lines 211-239),
returning the final state and the ids of the tasks appended to `updated`,
in processing order.  The Python loop reads each task through the identity
map built from the initial query, so mutations made by earlier items are
visible to later items referencing the same task; threading the state and
re-finding the task by id reproduces exactly that.  Missing tasks and
authorization denials `continue` silently; the function is total — no
error is ever surfaced and no item aborts the rest of the batch. -/
def bulk_update (db : DBState) (userId : Nat) (role : String)
    (items : List BulkTaskUpdateItem) : DBState × List Nat :=
  match items with
  | [] => (db, [])
  | item :: rest =>
    match findTask db item.id with
    | none => bulk_update db userId role rest
    | some task =>
      if canUpdate role userId task then
        let r := bulk_update (bulkStep db userId item task) userId role rest
        (r.1, item.id :: r.2)
      else
        bulk_update db userId role rest

/-- Number of `create` events recorded for a given task id. -/
def countCreateEvents (db : DBState) (taskId : Nat) : Nat :=
  (db.events.filter (fun e => e.eventType = "create" ∧ e.taskId = taskId)).length

/-- Number of `TaskDependency` rows for a given ordered pair. -/
def depCount (db : DBState) (a b : Nat) : Nat :=
  (db.deps.filter (fun p => p = (a, b))).length

/-- Number of `add_dependency` events recorded for a given pair. -/
def addDepEventCount (db : DBState) (a b : Nat) : Nat :=
  (db.events.filter (fun e =>
    e.eventType = "add_dependency" ∧ e.taskId = a ∧
      e.newValue = some (toString b))).length

/-- The relation changes `_apply_task_updates` appends unconditionally
whenever the corresponding list is supplied (lines 39 and 50-52), even when
the desired set equals the current one. -/
def relationChanges (d : TaskUpdate) : List FieldChange :=
  (match d.tagNames with
   | none => []
   | some names => [⟨"tags", none, some (joinComma names)⟩]) ++
  (match d.collaboratorIds with
   | none => []
   | some ids => [⟨"collaborators", none, some (joinComma (ids.map toString))⟩])

/-! ### Helper lemmas about the diff engine -/

theorem setAttrReq_fst (f : String) (ts : α → String) [DecidableEq α]
    (old : α) (v : Option α) : (setAttrReq f ts old v).1 = v.getD old := by
  cases v with
  | none => rfl
  | some w =>
    simp only [setAttrReq, Option.getD_some]
    split <;> simp_all

theorem setAttrOpt_fst_some (f : String) (ts : α → String) [DecidableEq α]
    (old : Option α) (w : α) : (setAttrOpt f ts old (some w)).1 = some w := by
  simp only [setAttrOpt]
  split <;> simp_all

theorem setAttrReq_idem_snd (f : String) (ts : α → String) [DecidableEq α]
    (old : α) (v : Option α) :
    (setAttrReq f ts (setAttrReq f ts old v).1 v).2 = [] := by
  rw [setAttrReq_fst]
  cases v with
  | none => rfl
  | some w => simp [setAttrReq]

theorem setAttrOpt_idem_snd (f : String) (ts : α → String) [DecidableEq α]
    (old : Option α) (v : Option α) :
    (setAttrOpt f ts (setAttrOpt f ts old v).1 v).2 = [] := by
  cases v with
  | none => rfl
  | some w =>
    rw [setAttrOpt_fst_some]
    simp [setAttrOpt]

theorem setAttrOpt_isSome (f : String) (ts : α → String) [DecidableEq α]
    (old : Option α) (v : Option α) (h : old.isSome = true) :
    ((setAttrOpt f ts old v).1).isSome = true := by
  cases v with
  | none => exact h
  | some w => rw [setAttrOpt_fst_some]; rfl

theorem resolveTags_foldl_snd (names : List String) (store acc : List String) :
    (names.foldl resolveStep (store, acc)).2 = acc ++ names := by
  induction names generalizing store acc with
  | nil => simp
  | cons n ns ih =>
    simp only [List.foldl_cons, resolveStep]
    by_cases h : n ∈ store
    · simp [h, ih]
    · simp [h, ih]

theorem resolveTags_snd (store names : List String) :
    (resolveTags store names).2 = names := by
  simpa using resolveTags_foldl_snd names store []

theorem resolveTags_foldl_fst_mem (x : String) (names store acc : List String) :
    x ∈ (names.foldl resolveStep (store, acc)).1 ↔ x ∈ store ∨ x ∈ names := by
  induction names generalizing store acc with
  | nil => simp
  | cons n ns ih =>
    simp only [List.foldl_cons, resolveStep]
    by_cases h : n ∈ store
    · rw [if_pos h, ih]
      simp only [List.mem_cons]
      constructor
      · rintro (hx | hx)
        · exact Or.inl hx
        · exact Or.inr (Or.inr hx)
      · rintro (hx | rfl | hx)
        · exact Or.inl hx
        · exact Or.inl h
        · exact Or.inr hx
    · rw [if_neg h, ih]
      simp only [List.mem_append, List.mem_cons, List.mem_singleton]
      tauto

theorem resolveTags_fst_mem (x : String) (store names : List String) :
    x ∈ (resolveTags store names).1 ↔ x ∈ store ∨ x ∈ names := by
  simpa using resolveTags_foldl_fst_mem x names store []

theorem applyTaskUpdates_id (t : Task) (d : TaskUpdate)
    (s : List String) (u : List Nat) :
    (applyTaskUpdates t d s u).1.id = t.id := rfl

theorem applyTaskUpdates_title (t : Task) (d : TaskUpdate)
    (s : List String) (u : List Nat) :
    (applyTaskUpdates t d s u).1.title = (setAttrReq "title" id t.title d.title).1 := rfl

theorem applyTaskUpdates_description (t : Task) (d : TaskUpdate)
    (s : List String) (u : List Nat) :
    (applyTaskUpdates t d s u).1.description
      = (setAttrOpt "description" id t.description d.description).1 := rfl

theorem applyTaskUpdates_status (t : Task) (d : TaskUpdate)
    (s : List String) (u : List Nat) :
    (applyTaskUpdates t d s u).1.status = (setAttrReq "status" id t.status d.status).1 := rfl

theorem applyTaskUpdates_priority (t : Task) (d : TaskUpdate)
    (s : List String) (u : List Nat) :
    (applyTaskUpdates t d s u).1.priority
      = (setAttrReq "priority" id t.priority d.priority).1 := rfl

theorem applyTaskUpdates_dueDate (t : Task) (d : TaskUpdate)
    (s : List String) (u : List Nat) :
    (applyTaskUpdates t d s u).1.dueDate
      = (setAttrOpt "due_date" toString t.dueDate d.dueDate).1 := rfl

theorem applyTaskUpdates_assigneeId (t : Task) (d : TaskUpdate)
    (s : List String) (u : List Nat) :
    (applyTaskUpdates t d s u).1.assigneeId
      = (setAttrOpt "assignee_id" toString t.assigneeId d.assigneeId).1 := rfl

theorem applyTaskUpdates_parentId (t : Task) (d : TaskUpdate)
    (s : List String) (u : List Nat) :
    (applyTaskUpdates t d s u).1.parentId
      = (setAttrOpt "parent_id" toString t.parentId d.parentId).1 := rfl

theorem applyTaskUpdates_tags (t : Task) (d : TaskUpdate)
    (s : List String) (u : List Nat) :
    (applyTaskUpdates t d s u).1.tags = (syncTagsPart t.tags s d.tagNames).1 := rfl

theorem applyTaskUpdates_store (t : Task) (d : TaskUpdate)
    (s : List String) (u : List Nat) :
    (applyTaskUpdates t d s u).2.1 = (syncTagsPart t.tags s d.tagNames).2.1 := rfl

theorem applyTaskUpdates_collaborators (t : Task) (d : TaskUpdate)
    (s : List String) (u : List Nat) :
    (applyTaskUpdates t d s u).1.collaborators
      = (syncCollaboratorsPart t.collaborators u d.collaboratorIds).1 := rfl

/-! ### Concrete fixtures used by witnesses and counterexamples -/

/-- A task created by user 1 with no assignee and all optional fields
empty. -/
def task1 : Task :=
  { id := 1, title := "Ship release", description := none, status := "todo",
    priority := "medium", dueDate := none, createdById := 1,
    assigneeId := none, parentId := none, tags := [], collaborators := [] }

/-- A task created by user 1 and assigned to user 2, with every optional
field populated. -/
def task2 : Task :=
  { id := 2, title := "Blocker", description := some "notes", status := "todo",
    priority := "high", dueDate := some 5, createdById := 1,
    assigneeId := some 2, parentId := some 1, tags := [], collaborators := [] }

/-- A small store: two tasks, three users, no tags, deps or events yet. -/
def db0 : DBState :=
  { tasks := [task1, task2], tagNames := [], users := [1, 2, 3],
    deps := [], events := [], nextId := 3 }

/-- A patch whose status value is outside {todo, in_progress, done,
blocked}. -/
def patchBogus : TaskUpdate := { status := some "bogus" }

/-! ### Claims -/

theorem canUpdate_iff (role : String) (userId : Nat) (task : Task) :
    canUpdate role userId task = true ↔
      (role = "admin" ∨ role = "manager" ∨ userId = task.createdById
        ∨ task.assigneeId = some userId) := by
  simp [canUpdate]

theorem canDelete_iff (role : String) (userId : Nat) (task : Task) :
    canDelete role userId task = true ↔
      (role = "admin" ∨ role = "manager" ∨ userId = task.createdById) := by
  simp [canDelete]

/-- C7: for every task id `t`, `addDependency(t, t)` fails with the 400
validation error — for every store, in particular stores in which `t` does
not even exist, showing the check precedes the not-found lookup; the error
branch commits nothing, so no `TaskDependency` row and no `TaskEvent` is
created. -/
theorem add_dependency_self_validation (db : DBState) (userId t : Nat) :
    add_dependency db userId t t = .error ⟨400, "Task cannot depend on itself"⟩ := by
  simp [add_dependency]

/-- C5: when the task exists, `update_task` is rejected with 403 exactly
when the actor is neither admin nor manager nor the task's creator nor its
assignee; otherwise it proceeds to apply the patch.  The 403 branch
returns before anything is written, so the task is unchanged. -/
theorem update_task_authorization (db : DBState) (userId : Nat) (role : String)
    (taskId : Nat) (data : TaskUpdate) (task : Task)
    (hfind : findTask db taskId = some task) :
    (update_task db userId role taskId data
        = .error ⟨403, "Not allowed to update this task"⟩
      ↔ ¬(role = "admin" ∨ role = "manager" ∨ userId = task.createdById
            ∨ task.assigneeId = some userId))
    ∧ ((role = "admin" ∨ role = "manager" ∨ userId = task.createdById
          ∨ task.assigneeId = some userId) →
        update_task db userId role taskId data =
          .ok (updateTaskState db userId taskId data task,
               (applyTaskUpdates task data db.tagNames db.users).1)) := by
  simp only [update_task, hfind]
  by_cases hc : canUpdate role userId task = true
  · rw [if_pos hc]
    have hcond := (canUpdate_iff role userId task).mp hc
    exact ⟨⟨fun h => Except.noConfusion h, fun hn => absurd hcond hn⟩, fun _ => rfl⟩
  · rw [if_neg hc]
    have hcond : ¬(role = "admin" ∨ role = "manager" ∨ userId = task.createdById
        ∨ task.assigneeId = some userId) :=
      fun hcond => hc ((canUpdate_iff role userId task).mpr hcond)
    exact ⟨⟨fun _ => hcond, fun _ => rfl⟩, fun hcond2 => absurd hcond2 hcond⟩

/-- Witness for C5: user 3 (role member, neither creator nor assignee of
task 1) is refused with 403. -/
theorem update_task_authorization_witness :
    update_task db0 3 "member" 1 {} = .error ⟨403, "Not allowed to update this task"⟩ :=
  (update_task_authorization db0 3 "member" 1 {} task1 (by decide)).1.mpr (by decide)

/-- C6: when the task exists, `delete_task` is permitted exactly when the
actor is admin, manager, or the task's creator; in every other case —
including an actor who is only the assignee — it fails with 403 and the
error branch commits nothing. -/
theorem delete_task_authorization (db : DBState) (userId : Nat) (role : String)
    (taskId : Nat) (task : Task)
    (hfind : findTask db taskId = some task) :
    (delete_task db userId role taskId
        = .error ⟨403, "Not allowed to delete this task"⟩
      ↔ ¬(role = "admin" ∨ role = "manager" ∨ userId = task.createdById))
    ∧ ((role = "admin" ∨ role = "manager" ∨ userId = task.createdById) →
        delete_task db userId role taskId =
          .ok { db with tasks := db.tasks.filter (fun t => ¬ t.id = taskId) }) := by
  simp only [delete_task, hfind]
  by_cases hc : canDelete role userId task = true
  · rw [if_pos hc]
    have hcond := (canDelete_iff role userId task).mp hc
    exact ⟨⟨fun h => Except.noConfusion h, fun hn => absurd hcond hn⟩, fun _ => rfl⟩
  · rw [if_neg hc]
    have hcond : ¬(role = "admin" ∨ role = "manager" ∨ userId = task.createdById) :=
      fun hcond => hc ((canDelete_iff role userId task).mpr hcond)
    exact ⟨⟨fun _ => hcond, fun _ => rfl⟩, fun hcond2 => absurd hcond2 hcond⟩

/-- Witness for C6: user 2 is the assignee (but not the creator) of task 2
and holds role member; deletion is refused with 403. -/
theorem delete_task_authorization_witness :
    delete_task db0 2 "member" 2 = .error ⟨403, "Not allowed to delete this task"⟩ :=
  (delete_task_authorization db0 2 "member" 2 task2 (by decide)).1.mpr (by decide)

/-- C8: for a pair of distinct existing tasks with no prior dependency row
or `add_dependency` event for the pair, the first `addDependency(a, b)`
inserts the row and the event, and the second call is a no-op success
("Dependency already exists") that leaves the state unchanged: afterwards
exactly one row and exactly one event exist for the pair. -/
theorem add_dependency_idem (db : DBState) (userId a b : Nat) (ta tb : Task)
    (hne : a ≠ b) (ha : findTask db a = some ta) (hb : findTask db b = some tb)
    (hdep : (a, b) ∉ db.deps) (hev : addDepEventCount db a b = 0) :
    add_dependency db userId a b = .ok (addDepState db userId a b, "Dependency added")
    ∧ add_dependency (addDepState db userId a b) userId a b
        = .ok (addDepState db userId a b, "Dependency already exists")
    ∧ depCount (addDepState db userId a b) a b = 1
    ∧ addDepEventCount (addDepState db userId a b) a b = 1 := by
  refine ⟨?_, ?_, ?_, ?_⟩
  · simp only [add_dependency, if_neg hne, ha, hb]
    rw [if_neg hdep]
  · have ha' : findTask (addDepState db userId a b) a = some ta := ha
    have hb' : findTask (addDepState db userId a b) b = some tb := hb
    have hmem : (a, b) ∈ (addDepState db userId a b).deps :=
      List.mem_append_right _ (List.mem_singleton_self _)
    simp only [add_dependency, if_neg hne, ha', hb']
    rw [if_pos hmem]
  · have hnil : db.deps.filter (fun p => p = (a, b)) = [] := by
      rw [List.filter_eq_nil_iff]
      intro p hp
      simp only [decide_eq_true_eq]
      exact fun h => hdep (h ▸ hp)
    simp [depCount, addDepState, List.filter_append, hnil]
  · have hnil : db.events.filter (fun e =>
        e.eventType = "add_dependency" ∧ e.taskId = a ∧
          e.newValue = some (toString b)) = [] := by
      have h0 := hev
      unfold addDepEventCount at h0
      rwa [List.length_eq_zero] at h0
    have hforall := List.filter_eq_nil_iff.mp hnil
    simp [addDepEventCount, addDepState, List.filter_append, hnil]
    intro e he h1 h2 h3
    exact absurd (by simp [h1, h2, h3]) (hforall e he)

/-- Witness for C8: adding the dependency (1, 2) twice to `db0`. -/
theorem add_dependency_idem_witness :
    add_dependency db0 1 1 2 = .ok (addDepState db0 1 1 2, "Dependency added")
    ∧ add_dependency (addDepState db0 1 1 2) 1 1 2
        = .ok (addDepState db0 1 1 2, "Dependency already exists")
    ∧ depCount (addDepState db0 1 1 2) 1 2 = 1
    ∧ addDepEventCount (addDepState db0 1 1 2) 1 2 = 1 :=
  add_dependency_idem db0 1 1 2 task1 task2 (by decide) (by decide) (by decide)
    (by decide) (by decide)

/-- C1 (amended): `create_task` persists the task in a first commit and
records its single `create` event only in a second commit.  After the
second commit the task has exactly one `create` event, but the first
committed state already contains the task with zero `create` events. -/
theorem create_task_two_commits (db : DBState) (userId : Nat) (input : TaskCreate)
    (hfresh : ∀ e ∈ db.events, e.taskId ≠ db.nextId) :
    (∃ t ∈ (create_task db userId input).1.tasks, t.id = db.nextId)
    ∧ countCreateEvents (create_task db userId input).1 db.nextId = 0
    ∧ countCreateEvents (create_task db userId input).2.1 db.nextId = 1 := by
  have hnil : db.events.filter (fun e =>
      e.eventType = "create" ∧ e.taskId = db.nextId) = [] := by
    rw [List.filter_eq_nil_iff]
    intro e he
    simp only [decide_eq_true_eq, not_and]
    exact fun _ h2 => hfresh e he h2
  refine ⟨?_, ?_, ?_⟩
  · simp only [create_task]
    exact ⟨_, List.mem_append_right _ (List.mem_singleton_self _), rfl⟩
  · simp only [countCreateEvents, create_task]
    rw [hnil]
    rfl
  · simp only [countCreateEvents, create_task]
    rw [List.filter_append, hnil]
    simp

/-- Witness for C1's amended claim: creating a task in `db0` (whose event
ledger is empty, so id 3 is fresh) gives zero `create` events in the first
committed state and one in the second. -/
theorem create_task_two_commits_witness :
    countCreateEvents (create_task db0 7 { title := "Another task" }).1 db0.nextId = 0
    ∧ countCreateEvents (create_task db0 7 { title := "Another task" }).2.1 db0.nextId = 1 :=
  ⟨(create_task_two_commits db0 7 { title := "Another task" } (by decide)).2.1,
   (create_task_two_commits db0 7 { title := "Another task" } (by decide)).2.2⟩

/-- C1 counterexample: creating a task in `db0` yields a first committed
state containing the new task (id 3) while the event ledger is still
empty — a committed state in which the task is persisted without its
`create` event, contradicting the atomicity stated by the claim.  Only
the second commit adds the single `create` event. -/
theorem create_task_nonatomic_cex :
    ((create_task db0 7 { title := "New task" }).1.tasks.map Task.id = [1, 2, 3])
    ∧ (create_task db0 7 { title := "New task" }).1.events = []
    ∧ countCreateEvents (create_task db0 7 { title := "New task" }).1 3 = 0
    ∧ countCreateEvents (create_task db0 7 { title := "New task" }).2.1 3 = 1 := by
  decide

/-- A patch that only replaces the tag set. -/
def patchTag : TaskUpdate := { tagNames := some ["urgent"] }

/-- C2 counterexample: applying `patchTag` to `task1` twice in a row still
yields a non-empty change list on the second application (the relation
change for `tags` is appended unconditionally whenever `tag_names` is
supplied), so the second application records an `update` event, refuting
the claimed idempotence for patches that supply `tag_names`. -/
theorem applyTaskUpdates_not_idempotent_cex :
    (applyTaskUpdates (applyTaskUpdates task1 patchTag [] []).1 patchTag
        (applyTaskUpdates task1 patchTag [] []).2.1 []).2.2 ≠ [] := by
  decide

/-- C2 (amended): the second application of the same patch yields no
scalar-field changes — its change list is exactly the relation changes
re-reported for the supplied `tag_names`/`collaborator_ids` — and is empty
precisely when the patch supplies neither relation list. -/
theorem applyTaskUpdates_idem (t : Task) (d : TaskUpdate)
    (store : List String) (users : List Nat) :
    ((applyTaskUpdates (applyTaskUpdates t d store users).1 d
        (applyTaskUpdates t d store users).2.1 users).2.2 = relationChanges d)
    ∧ (relationChanges d = [] ↔ d.tagNames = none ∧ d.collaboratorIds = none) := by
  obtain ⟨ti, de, st, pr, du, asg, pa, tn, ci⟩ := d
  constructor
  · cases tn <;> cases ci <;>
      simp [applyTaskUpdates, relationChanges, syncTagsPart, syncCollaboratorsPart,
        setAttrReq_idem_snd, setAttrOpt_idem_snd]
  · cases tn <;> cases ci <;> simp [relationChanges]

/-- Projects the status of the task returned by a successful update. -/
def statusOfResult : Except HTTPException (DBState × Task) → Option String
  | .ok p => some p.2.status
  | .error _ => none

/-- C3 counterexample: patching task 1 with `status = "bogus"` (not a
member of {todo, in_progress, done, blocked}) does NOT fail with a
validation error: the update succeeds and the task's status becomes
"bogus", refuting the claimed enum validation. -/
theorem update_task_invalid_status_accepted_cex :
    statusOfResult (update_task db0 1 "admin" 1 patchBogus) = some "bogus" := by
  decide

/-- C3 (amended): `update_task` performs no enum validation at all: for an
existing task and an authorized actor it always succeeds, and any supplied
`status`/`priority` string — whether or not it belongs to the enumeration —
ends up as the task's new value (the current value when the field is
omitted). -/
theorem update_task_no_enum_validation (db : DBState) (userId : Nat)
    (role : String) (taskId : Nat) (d : TaskUpdate) (task : Task)
    (hfind : findTask db taskId = some task)
    (hauth : canUpdate role userId task = true) :
    update_task db userId role taskId d =
      .ok (updateTaskState db userId taskId d task,
           (applyTaskUpdates task d db.tagNames db.users).1)
    ∧ (applyTaskUpdates task d db.tagNames db.users).1.status
        = d.status.getD task.status
    ∧ (applyTaskUpdates task d db.tagNames db.users).1.priority
        = d.priority.getD task.priority := by
  refine ⟨?_, ?_, ?_⟩
  · simp [update_task, hfind, hauth]
  · rw [applyTaskUpdates_status]
    exact setAttrReq_fst _ _ _ _
  · rw [applyTaskUpdates_priority]
    exact setAttrReq_fst _ _ _ _

/-- Witness for C3's amended claim: admin user 1 patches task 1 with the
out-of-enumeration status "bogus"; the update succeeds and the status
becomes "bogus". -/
theorem update_task_no_enum_validation_witness :
    update_task db0 1 "admin" 1 patchBogus =
      .ok (updateTaskState db0 1 1 patchBogus task1,
           (applyTaskUpdates task1 patchBogus db0.tagNames db0.users).1)
    ∧ (applyTaskUpdates task1 patchBogus db0.tagNames db0.users).1.status
        = patchBogus.status.getD task1.status
    ∧ (applyTaskUpdates task1 patchBogus db0.tagNames db0.users).1.priority
        = patchBogus.priority.getD task1.priority :=
  update_task_no_enum_validation db0 1 "admin" 1 patchBogus task1
    (by decide) (by decide)

/-- C9: when the patch supplies `tag_names`, the task's tag set afterwards
is exactly the desired name set and every desired name now exists in the
tag table (created when missing, by case-sensitive exact match); when the
patch supplies `collaborator_ids`, the collaborator set afterwards is
exactly the subset of the desired ids that resolve to existing users —
unresolvable ids are dropped with no error. -/
theorem applyTaskUpdates_relations (t : Task) (d : TaskUpdate)
    (store : List String) (users : List Nat)
    (names : List String) (ids : List Nat) :
    (d.tagNames = some names →
      ((∀ x, x ∈ (applyTaskUpdates t d store users).1.tags ↔ x ∈ names)
        ∧ (∀ x, x ∈ (applyTaskUpdates t d store users).2.1
              ↔ (x ∈ store ∨ x ∈ names))))
    ∧ (d.collaboratorIds = some ids →
        (∀ u, u ∈ (applyTaskUpdates t d store users).1.collaborators
            ↔ (u ∈ users ∧ u ∈ ids))) := by
  constructor
  · intro h
    constructor
    · intro x
      rw [applyTaskUpdates_tags, h]
      simp only [syncTagsPart]
      rw [resolveTags_snd]
    · intro x
      rw [applyTaskUpdates_store, h]
      simp only [syncTagsPart]
      exact resolveTags_fst_mem x store names
  · intro h u
    rw [applyTaskUpdates_collaborators, h]
    rcases ids with _ | ⟨i, is⟩
    · simp [syncCollaboratorsPart]
    · simp [syncCollaboratorsPart, List.mem_filter]

/-- A patch replacing both relation sets, including one unresolvable
collaborator id (9). -/
def patchRel : TaskUpdate :=
  { tagNames := some ["urgent", "release"], collaboratorIds := some [2, 9] }

/-- Witness for C9: after applying `patchRel`, tag "urgent" is linked, and
the unresolvable collaborator id 9 is in the set exactly when it resolves
(it does not). -/
theorem applyTaskUpdates_relations_witness :
    ("urgent" ∈ (applyTaskUpdates task1 patchRel [] [1, 2, 3]).1.tags
        ↔ "urgent" ∈ ["urgent", "release"])
    ∧ (9 ∈ (applyTaskUpdates task1 patchRel [] [1, 2, 3]).1.collaborators
        ↔ (9 ∈ [1, 2, 3] ∧ 9 ∈ [2, 9])) :=
  ⟨((applyTaskUpdates_relations task1 patchRel [] [1, 2, 3]
      ["urgent", "release"] [2, 9]).1 rfl).1 "urgent",
   (applyTaskUpdates_relations task1 patchRel [] [1, 2, 3]
      ["urgent", "release"] [2, 9]).2 rfl 9⟩

/-- C10: a patch field holding `None` (which pydantic produces both for an
omitted field and for an explicit JSON null, indistinguishably) leaves the
corresponding task field unchanged — for all seven mutable scalar fields —
and consequently an optional field that holds a value can never be cleared
back to null by any patch. -/
theorem applyTaskUpdates_null_frame (t : Task) (d : TaskUpdate)
    (store : List String) (users : List Nat) :
    (d.title = none → (applyTaskUpdates t d store users).1.title = t.title)
    ∧ (d.description = none →
        (applyTaskUpdates t d store users).1.description = t.description)
    ∧ (d.status = none → (applyTaskUpdates t d store users).1.status = t.status)
    ∧ (d.priority = none →
        (applyTaskUpdates t d store users).1.priority = t.priority)
    ∧ (d.dueDate = none → (applyTaskUpdates t d store users).1.dueDate = t.dueDate)
    ∧ (d.assigneeId = none →
        (applyTaskUpdates t d store users).1.assigneeId = t.assigneeId)
    ∧ (d.parentId = none →
        (applyTaskUpdates t d store users).1.parentId = t.parentId)
    ∧ (t.description.isSome = true →
        ((applyTaskUpdates t d store users).1.description).isSome = true)
    ∧ (t.dueDate.isSome = true →
        ((applyTaskUpdates t d store users).1.dueDate).isSome = true)
    ∧ (t.assigneeId.isSome = true →
        ((applyTaskUpdates t d store users).1.assigneeId).isSome = true)
    ∧ (t.parentId.isSome = true →
        ((applyTaskUpdates t d store users).1.parentId).isSome = true) := by
  refine ⟨?_, ?_, ?_, ?_, ?_, ?_, ?_, ?_, ?_, ?_, ?_⟩
  · intro h; rw [applyTaskUpdates_title, h]; rfl
  · intro h; rw [applyTaskUpdates_description, h]; rfl
  · intro h; rw [applyTaskUpdates_status, h]; rfl
  · intro h; rw [applyTaskUpdates_priority, h]; rfl
  · intro h; rw [applyTaskUpdates_dueDate, h]; rfl
  · intro h; rw [applyTaskUpdates_assigneeId, h]; rfl
  · intro h; rw [applyTaskUpdates_parentId, h]; rfl
  · intro h; rw [applyTaskUpdates_description]; exact setAttrOpt_isSome _ _ _ _ h
  · intro h; rw [applyTaskUpdates_dueDate]; exact setAttrOpt_isSome _ _ _ _ h
  · intro h; rw [applyTaskUpdates_assigneeId]; exact setAttrOpt_isSome _ _ _ _ h
  · intro h; rw [applyTaskUpdates_parentId]; exact setAttrOpt_isSome _ _ _ _ h

/-- Witness for C10: the all-`None` patch leaves task 2's title unchanged
and cannot clear its populated description. -/
theorem applyTaskUpdates_null_frame_witness :
    ((applyTaskUpdates task2 {} [] []).1.title = task2.title)
    ∧ ((applyTaskUpdates task2 {} [] []).1.description).isSome = true :=
  ⟨(applyTaskUpdates_null_frame task2 {} [] []).1 rfl,
   (applyTaskUpdates_null_frame task2 {} [] []).2.2.2.2.2.2.2.1 rfl⟩

/-- C4: for every batch (no restriction on the items or their ids),
`bulk_update` processes the items left to right over the evolving store,
treating each item exactly as the single update `update_task` would at
that point: an item whose single update would fail — by C5's guard
characterization, exactly when its task id does not resolve (404) or the
actor is not authorized for that task (403) — is skipped silently, leaving
the store and the processing of the remaining items untouched and
contributing no entry to the result; an item whose single update succeeds
commits that update's store and contributes exactly its task id, in
processing position.  Together with the empty-batch equation these
equations determine the result for every batch: it lists exactly the
tasks actually updated, in the order the items were processed, and since
`bulk_update` is total by type no error is ever surfaced and no item
aborts the rest. -/
theorem bulk_update_skips_and_orders (db : DBState) (userId : Nat)
    (role : String) (item : BulkTaskUpdateItem)
    (rest : List BulkTaskUpdateItem) :
    (bulk_update db userId role [] = (db, []))
    ∧ (∀ e : HTTPException,
        update_task db userId role item.id (bulkItemToUpdate item) = .error e →
        bulk_update db userId role (item :: rest) = bulk_update db userId role rest)
    ∧ (∀ (db1 : DBState) (t1 : Task),
        update_task db userId role item.id (bulkItemToUpdate item) = .ok (db1, t1) →
        bulk_update db userId role (item :: rest)
          = ((bulk_update db1 userId role rest).1,
             item.id :: (bulk_update db1 userId role rest).2)) := by
  refine ⟨rfl, ?_, ?_⟩
  · intro e he
    rcases hf : findTask db item.id with _ | task
    · simp only [bulk_update, hf]
    · by_cases hc : canUpdate role userId task = true
      · exfalso
        simp only [update_task, hf] at he
        rw [if_pos hc] at he
        exact Except.noConfusion he
      · simp only [bulk_update, hf]
        rw [if_neg hc]
  · intro db1 t1 he
    rcases hf : findTask db item.id with _ | task
    · exfalso
      simp only [update_task, hf] at he
      exact Except.noConfusion he
    · by_cases hc : canUpdate role userId task = true
      · simp only [update_task, hf] at he
        rw [if_pos hc] at he
        injection he with hpair
        injection hpair with hdb ht
        subst hdb
        simp only [bulk_update, hf]
        rw [if_pos hc]
        rfl
      · exfalso
        simp only [update_task, hf] at he
        rw [if_neg hc] at he
        exact Except.noConfusion he

/-- An item member 2 may not apply: they are neither creator nor assignee
of task 1. -/
def itemSkip : BulkTaskUpdateItem := { id := 1, status := some "in_progress" }

/-- An item member 2 may apply: they are the assignee of task 2. -/
def itemOk : BulkTaskUpdateItem := { id := 2, priority := some "low" }

/-- Witness for C4: over `db0`, member 2's unauthorized item for task 1 is
skipped silently (batch result equals that of the remaining batch), and
their authorized item for task 2 contributes exactly task id 2, with the
rest processed in the updated store. -/
theorem bulk_update_skips_and_orders_witness :
    (bulk_update db0 2 "member" (itemSkip :: [itemOk])
        = bulk_update db0 2 "member" [itemOk])
    ∧ (bulk_update db0 2 "member" (itemOk :: [])
        = ((bulk_update (updateTaskState db0 2 2 (bulkItemToUpdate itemOk) task2)
              2 "member" []).1,
           itemOk.id ::
             (bulk_update (updateTaskState db0 2 2 (bulkItemToUpdate itemOk) task2)
               2 "member" []).2)) :=
  ⟨(bulk_update_skips_and_orders db0 2 "member" itemSkip [itemOk]).2.1
      ⟨403, "Not allowed to update this task"⟩ (by rfl),
   (bulk_update_skips_and_orders db0 2 "member" itemOk []).2.2
      (updateTaskState db0 2 2 (bulkItemToUpdate itemOk) task2)
      ((applyTaskUpdates task2 (bulkItemToUpdate itemOk) db0.tagNames db0.users).1)
      (by rfl)⟩

end App
